import Mathlib

/-!
Shallow embedding of the Cadence audio-engine backend
(`src/engine/backends/rtaudiobackend.cpp`, `src/engine/devices/rtaudiodevice.cpp`,
`src/engine/common/audioconfig.h`, `src/engine/common/audioerror.h`).

Machine doubles are modelled as rationals, the wall clock and the native
RtAudio layer as explicit oracle inputs, and C++ exceptions as explicit
error results carrying the post-state of the object at the throw point.
-/

namespace AudioEngine

/-- `SampleFormat` from audioconfig.h. -/
inductive SampleFormat where
  | Float32
  | Int16
  | Int24
  | Int32
deriving DecidableEq

/-- `BufferStrategy` from audioconfig.h. -/
inductive BufferStrategy where
  | Fixed
  | Adaptive
  | LowLatency
  | Stable
deriving DecidableEq

/-- `BackendType` from audioconfig.h. -/
inductive BackendType where
  | Auto
  | ASIO
  | WASAPI
  | DirectSound
  | CoreAudio
  | JACK
  | ALSA
  | Pulse
  | RtAudio
deriving DecidableEq

/-- `AudioErrorCode` from audioerror.h. -/
inductive AudioErrorCode where
  | Success
  | DeviceNotFound
  | DeviceUnavailable
  | InvalidConfiguration
  | SampleRateUnsupported
  | BufferSizeUnsupported
  | AudioBackendInitFailed
  | AudioBackendStartFailed
  | AudioBackendStopFailed
  | RealTimePriorityFailed
  | AudioCallbackError
  | AudioStreamClosed
  | PlatformSpecificError
deriving DecidableEq

/-- `StreamConfig` from audioconfig.h, with the field defaults of the C++
struct. -/
structure StreamConfig where
  inputDeviceName : Option String := none
  outputDeviceName : Option String := none
  sampleRate : Int := 48000
  bufferSize : Int := 512
  inputChannels : Int := 2
  outputChannels : Int := 2
  format : SampleFormat := SampleFormat.Float32
  bufferStrategy : BufferStrategy := BufferStrategy.Stable
  allowSampleRateChange : Bool := false
  allowBufferSizeChange : Bool := false
  exclusiveMode : Bool := false
  preferredBackend : BackendType := BackendType.Auto

/-- Modelled from the spec: `StreamConfig::isValid` is declared in
audioconfig.h but its implementation is not under src/.  Per §4.1 it
"returns false (never throws) when: sample rate ≤ 0; buffer size ≤ 0; both
channel counts are 0; format not in the recognized set" (every value of the
embedded `SampleFormat` enum is recognized). -/
def StreamConfig.isValid (c : StreamConfig) : Bool :=
  c.sampleRate > 0 && c.bufferSize > 0 &&
    (c.inputChannels > 0 || c.outputChannels > 0)

/-- User callbacks (`AudioCallback` in audiobackend.h) modelled by their
observable effect at the bridge boundary: from the input samples, the frame
count and the stream time they either produce the output samples they wrote
or raise an error message. -/
def AudioCallback : Type :=
  List ℚ → Nat → ℚ → Except String (List ℚ)

/-- The mutable fields of `RtAudioBackend` that the lifecycle and the
callback bridge touch (rtaudiobackend.h lines 95-111).
`m_lastCallbackTime` is wall-clock state; the elapsed time it yields is an
explicit input of the bridge instead. -/
structure BackendState where
  config : StreamConfig
  isRunning : Bool
  isPaused : Bool
  xrunCount : Int
  streamTime : ℚ
  cpuUsage : ℚ
  lastError : String
  userCallback : Option AudioCallback

/-- The freshly constructed backend: member initializers of
rtaudiobackend.h plus the default-constructed `StreamConfig`. -/
def initialState : BackendState :=
  { config := {}
    isRunning := false
    isPaused := false
    xrunCount := 0
    streamTime := 0
    cpuUsage := 0
    lastError := ""
    userCallback := none }

/-- RtAudio's `RTAUDIO_INPUT_OVERFLOW` status flag. -/
def RTAUDIO_INPUT_OVERFLOW : Nat := 1

/-- RtAudio's `RTAUDIO_OUTPUT_UNDERFLOW` status flag. -/
def RTAUDIO_OUTPUT_UNDERFLOW : Nat := 2

/-- One native-layer invocation of the callback bridge: the buffers, the
frame count, the status flags word, and the wall-clock time elapsed since
the previous invocation (the quantity `now - m_lastCallbackTime` the C++
reads from the clock). -/
structure Invocation where
  outputBuffer : Option (List ℚ)
  inputBuffer : List ℚ
  nFrames : Nat
  elapsed : ℚ
  status : Nat

/-- Xrun accounting of `handleAudioCallback` (rtaudiobackend.cpp 432-438):
one increment per set flag. -/
def applyXruns (st : BackendState) (status : Nat) : BackendState :=
  let st1 := if status &&& RTAUDIO_INPUT_OVERFLOW ≠ 0 then
      { st with xrunCount := st.xrunCount + 1 } else st
  if status &&& RTAUDIO_OUTPUT_UNDERFLOW ≠ 0 then
    { st1 with xrunCount := st1.xrunCount + 1 } else st1

/-- CPU-usage proxy of `handleAudioCallback` (rtaudiobackend.cpp 440-451). -/
def applyCpuUsage (st : BackendState) (nFrames : Nat) (elapsed : ℚ) :
    BackendState :=
  let expectedTime : ℚ := (nFrames : ℚ) / (st.config.sampleRate : ℚ)
  if elapsed > expectedTime then { st with cpuUsage := 100 }
  else { st with cpuUsage := (elapsed / expectedTime) * 100 }

/-- `RtAudioBackend::updateStreamTime` (rtaudiobackend.cpp 259-262). -/
def updateStreamTime (st : BackendState) (framesProcessed : Nat) :
    BackendState :=
  { st with streamTime :=
      st.streamTime + (framesProcessed : ℚ) / (st.config.sampleRate : ℚ) }

/-- The effect of `memset(outputBuffer, 0, nFrames * outputChannels *
sizeof(float))` on a buffer viewed as a sample list. -/
def memsetZero (buf : List ℚ) (k : Nat) : List ℚ :=
  List.replicate k 0 ++ buf.drop k

/-- Final phase of `handleAudioCallback` (rtaudiobackend.cpp 456-485),
applied to the state `st3` left by the counter updates: invoke the user
callback inside the failure boundary, or zero-fill the output buffer when
none is installed. -/
def bridgeDispatch (st3 : BackendState) (inv : Invocation) :
    BackendState × Int × Option (List ℚ) :=
  match st3.userCallback with
  | some cb =>
      match cb inv.inputBuffer inv.nFrames st3.streamTime with
      | Except.ok out => (st3, 0, some out)
      | Except.error msg =>
          ({ st3 with lastError := "Audio callback error: " ++ msg },
           1, inv.outputBuffer)
  | none =>
      if inv.outputBuffer.isSome ∧ st3.config.outputChannels > 0 then
        (st3, 0,
         inv.outputBuffer.map
           (fun buf => memsetZero buf
             (inv.nFrames * st3.config.outputChannels.toNat)))
      else (st3, 0, inv.outputBuffer)

/-- `RtAudioBackend::handleAudioCallback` (rtaudiobackend.cpp 428-486).
Returns the post-state, the int handed back to the native layer, and the
resulting output-buffer contents. -/
def handleAudioCallback (st : BackendState) (inv : Invocation) :
    BackendState × Int × Option (List ℚ) :=
  bridgeDispatch
    (updateStreamTime (applyCpuUsage (applyXruns st inv.status)
      inv.nFrames inv.elapsed) inv.nFrames) inv

/-- The stream time the bridge hands to the user callback: the accumulated
total after this invocation's own `updateStreamTime`. -/
def bridgeStreamTime (st : BackendState) (inv : Invocation) : ℚ :=
  st.streamTime + (inv.nFrames : ℚ) / (st.config.sampleRate : ℚ)

/-- Modelled from the spec: the native layer (RtAudio, an external
collaborator per §1) "repeatedly invokes the bridge" (§2) on its real-time
thread and a "non-zero return to native layer" halts the stream (§4.4), so
an invocation whose bridge call returns non-zero is the last one.  Returns
the final backend state and how many invocations were performed. -/
def nativeDriverLoop (st : BackendState) : List Invocation → BackendState × Nat
  | [] => (st, 0)
  | inv :: rest =>
      let r := handleAudioCallback st inv
      if r.2.1 = 0 then
        let res := nativeDriverLoop r.1 rest
        (res.1, res.2 + 1)
      else (r.1, 1)

/-- `RtAudio::StreamParameters`: its default constructor zero-fills all
three fields. -/
structure NativeStreamParams where
  deviceId : Int := 0
  nChannels : Int := 0
  firstChannel : Int := 0

/-- The behavior of the external native layer (RtAudio) and of the
device-enumeration results during one control-thread operation, as oracle
data: name lookup results, default device indices, whether each native
primitive succeeds, the buffer size the native open negotiates, and the
message an RtAudioError would carry. -/
structure NativeEnv where
  findDeviceIdByName : String → Bool → Int
  defaultInputDevice : Int
  defaultOutputDevice : Int
  openOk : Bool
  adjustedBufferFrames : Int
  startOk : Bool
  stopOk : Bool
  closeOk : Bool
  errMsg : String

/-- Modelled from the spec: the native stream-open primitive consumed from
the backend capability provider (§6) takes the negotiated parameters and
device selection and returns the "actual negotiated buffer size"; a present
StreamParameters block whose channel count is below one cannot denote a
negotiated stream and is rejected by the native layer (RtAudio's documented
precondition), as is an open with no parameter block at all; any other open
succeeds or fails at the native layer's discretion (`env.openOk`). -/
def nativeOpenStream (env : NativeEnv) (outP inP : Option NativeStreamParams) :
    Option Int :=
  if outP.isNone ∧ inP.isNone then none
  else if (match outP with
           | some p => decide (p.nChannels < 1)
           | none => false) then none
  else if (match inP with
           | some p => decide (p.nChannels < 1)
           | none => false) then none
  else if env.openOk then some env.adjustedBufferFrames else none

/-- Outcome of a control-thread operation: normal return with a value, or a
thrown `AudioException`; both carry the state of the object afterwards. -/
inductive OpResult (α : Type) where
  | ok : BackendState → α → OpResult α
  | err : BackendState → AudioErrorCode → OpResult α

/-- The backend state after the operation, whether it returned or threw. -/
def OpResult.state {α : Type} : OpResult α → BackendState
  | OpResult.ok st _ => st
  | OpResult.err st _ => st

/-- The error code the operation threw, if any. -/
def OpResult.thrown {α : Type} : OpResult α → Option AudioErrorCode
  | OpResult.ok _ _ => none
  | OpResult.err _ c => some c

/-- `RtAudioBackend::initialize` (rtaudiobackend.cpp 38-59): reject an
invalid config, store the config, clear the error string.  (The possible
recreation of the RtAudio handle for a different preferred backend touches
no field modelled here.) -/
def initStream (st : BackendState) (config : StreamConfig) : OpResult Unit :=
  if ¬ config.isValid then OpResult.err st AudioErrorCode.InvalidConfiguration
  else OpResult.ok { st with config := config, lastError := "" } ()

/-- Tail of `RtAudioBackend::start` (rtaudiobackend.cpp 125-153) from the
native `openStream` call on, applied to the state `st0` holding the freshly
installed callback: on open failure record the error, force `m_isRunning`
false and throw; on success write back the negotiated buffer size, reset
the performance counters, then start natively, with the same catch
handling. -/
def startOpenResult (env : NativeEnv) (st0 : BackendState)
    (opened : Option Int) : OpResult Unit :=
  match opened with
  | none =>
      OpResult.err
        { st0 with
          lastError := "Failed to start audio stream: " ++ env.errMsg
          isRunning := false }
        AudioErrorCode.AudioBackendStartFailed
  | some adjusted =>
      let st1 := { st0 with config := { st0.config with bufferSize := adjusted } }
      let st2 := { st1 with xrunCount := 0, cpuUsage := 0, streamTime := 0 }
      if env.startOk then
        OpResult.ok { st2 with isRunning := true, isPaused := false } ()
      else
        OpResult.err
          { st2 with
            lastError := "Failed to start audio stream: " ++ env.errMsg
            isRunning := false }
          AudioErrorCode.AudioBackendStartFailed

/-- `RtAudioBackend::start` (rtaudiobackend.cpp 61-154), line by line:
already-running and null-callback guards; parameter blocks filled only when
the corresponding device NAME is configured; default-device substitution
only when `nChannels > 0 ∧ deviceId = -1`; native open with a block passed
whenever the corresponding channel count of the config is positive; the
negotiated buffer size written back; counters reset; native start; on any
RtAudioError the error is recorded, `m_isRunning` is forced false and
`AudioBackendStartFailed` is thrown. -/
def start (env : NativeEnv) (st : BackendState) (cb : Option AudioCallback) :
    OpResult Unit :=
  if st.isRunning then OpResult.err st AudioErrorCode.AudioBackendStartFailed
  else if cb.isNone then
    OpResult.err st AudioErrorCode.AudioBackendStartFailed
  else
    let st0 : BackendState := { st with userCallback := cb }
    let inputParams : NativeStreamParams :=
      if st0.config.inputChannels > 0 ∧ st0.config.inputDeviceName.isSome then
        { deviceId :=
            env.findDeviceIdByName (st0.config.inputDeviceName.getD "") true
          nChannels := st0.config.inputChannels
          firstChannel := 0 }
      else {}
    let outputParams : NativeStreamParams :=
      if st0.config.outputChannels > 0 ∧ st0.config.outputDeviceName.isSome then
        { deviceId :=
            env.findDeviceIdByName (st0.config.outputDeviceName.getD "") false
          nChannels := st0.config.outputChannels
          firstChannel := 0 }
      else {}
    let inputParams :=
      if inputParams.nChannels > 0 ∧ inputParams.deviceId = -1 then
        { inputParams with deviceId := env.defaultInputDevice }
      else inputParams
    let outputParams :=
      if outputParams.nChannels > 0 ∧ outputParams.deviceId = -1 then
        { outputParams with deviceId := env.defaultOutputDevice }
      else outputParams
    let outP := if st0.config.outputChannels > 0 then some outputParams else none
    let inP := if st0.config.inputChannels > 0 then some inputParams else none
    startOpenResult env st0 (nativeOpenStream env outP inP)

/-- `RtAudioBackend::stop` (rtaudiobackend.cpp 156-174): early return when
not running; a native stop/close failure only records the error; the flags
are cleared and the callback dropped regardless. -/
def stop (env : NativeEnv) (st : BackendState) : BackendState :=
  if ¬ st.isRunning then st
  else
    let st1 :=
      if env.stopOk && env.closeOk then st
      else { st with lastError := "Error stopping stream: " ++ env.errMsg }
    { st1 with isRunning := false, isPaused := false, userCallback := none }

/-- `RtAudioBackend::pause` (rtaudiobackend.cpp 176-188). -/
def pause (env : NativeEnv) (st : BackendState) : OpResult Unit :=
  if ¬ st.isRunning ∨ st.isPaused then OpResult.ok st ()
  else if env.stopOk then OpResult.ok { st with isPaused := true } ()
  else
    OpResult.err { st with lastError := "Error pausing stream: " ++ env.errMsg }
      AudioErrorCode.AudioBackendStopFailed

/-- `RtAudioBackend::resume` (rtaudiobackend.cpp 190-203).  (The reset of
`m_lastCallbackTime` is wall-clock state outside the embedded fields.) -/
def resume (env : NativeEnv) (st : BackendState) : OpResult Unit :=
  if ¬ st.isRunning ∨ ¬ st.isPaused then OpResult.ok st ()
  else if env.startOk then OpResult.ok { st with isPaused := false } ()
  else
    OpResult.err { st with lastError := "Error resuming stream: " ++ env.errMsg }
      AudioErrorCode.AudioBackendStartFailed

/-- `RtAudioBackend::changeSampleRate` (rtaudiobackend.cpp 264-329):
refusal guard first; then pause (whose `AudioException` is NOT an
`RtAudioError` and so escapes the catch), native close, config update,
reopen with freshly default-constructed parameter blocks (the code never
fills them), and resume; `RtAudioError`s from close/open are caught,
recorded and turned into a `false` return. -/
def changeSampleRate (env : NativeEnv) (st : BackendState) (newRate : Int) :
    OpResult Bool :=
  if !st.isRunning || !st.config.allowSampleRateChange then OpResult.ok st false
  else
    let wasPaused := st.isPaused
    match (if wasPaused then OpResult.ok st () else pause env st) with
    | OpResult.err st' c => OpResult.err st' c
    | OpResult.ok st1 _ =>
      if ¬ env.closeOk then
        OpResult.ok
          { st1 with lastError := "Failed to change sample rate: " ++ env.errMsg }
          false
      else
        let st2 := { st1 with config := { st1.config with sampleRate := newRate } }
        let outP :=
          if st2.config.outputChannels > 0
          then some ({} : NativeStreamParams) else none
        let inP :=
          if st2.config.inputChannels > 0
          then some ({} : NativeStreamParams) else none
        match nativeOpenStream env outP inP with
        | none =>
            OpResult.ok
              { st2 with
                lastError := "Failed to change sample rate: " ++ env.errMsg }
              false
        | some _ =>
            if wasPaused then OpResult.ok st2 true
            else
              match resume env st2 with
              | OpResult.err st' c => OpResult.err st' c
              | OpResult.ok st3 _ => OpResult.ok st3 true

/-- `LatencyInfo` from audioconfig.h. -/
structure LatencyInfo where
  theoreticalMs : ℚ
  measuredMs : ℚ
  jitterMs : ℚ
  cpuUsage : ℚ
  xruns : Int

/-- `RtAudioBackend::measureLatency` (rtaudiobackend.cpp 488-506); the
`std::rand() % 100` draw enters as the oracle `randVal`. -/
def measureLatency (st : BackendState) (randVal : Nat) : LatencyInfo :=
  let theoretical : ℚ :=
    ((st.config.bufferSize : ℚ) * 1000) / (st.config.sampleRate : ℚ)
  { theoreticalMs := theoretical
    measuredMs := theoretical * (1 + ((randVal % 100 : Nat) : ℚ) / 1000)
    jitterMs := theoretical * (5 / 100)
    cpuUsage := st.cpuUsage
    xruns := st.xrunCount }

/-- RtAudio's `RTAUDIO_SINT16` format bit. -/
def RTAUDIO_SINT16 : Nat := 2

/-- RtAudio's `RTAUDIO_SINT24` format bit. -/
def RTAUDIO_SINT24 : Nat := 4

/-- RtAudio's `RTAUDIO_SINT32` format bit. -/
def RTAUDIO_SINT32 : Nat := 8

/-- RtAudio's `RTAUDIO_FLOAT32` format bit. -/
def RTAUDIO_FLOAT32 : Nat := 16

/-- `RtAudioDevice::convertRtAudioFormat` (rtaudiodevice.cpp 150-158): the
C++ switch over the `RtAudioFormat` word, default case `Float32`. -/
def convertRtAudioFormat (format : Nat) : SampleFormat :=
  if format = RTAUDIO_FLOAT32 then SampleFormat.Float32
  else if format = RTAUDIO_SINT16 then SampleFormat.Int16
  else if format = RTAUDIO_SINT24 then SampleFormat.Int24
  else if format = RTAUDIO_SINT32 then SampleFormat.Int32
  else SampleFormat.Float32

/-- `RtAudioDevice::convertToRtAudioFormat` (rtaudiodevice.cpp 160-168). -/
def convertToRtAudioFormat (format : SampleFormat) : Nat :=
  match format with
  | SampleFormat.Float32 => RTAUDIO_FLOAT32
  | SampleFormat.Int16 => RTAUDIO_SINT16
  | SampleFormat.Int24 => RTAUDIO_SINT24
  | SampleFormat.Int32 => RTAUDIO_SINT32

/-! Field-preservation lemmas for the three bridge phases. -/

@[simp] theorem applyXruns_config (st : BackendState) (s : Nat) :
    (applyXruns st s).config = st.config := by
  simp only [applyXruns]; split <;> split <;> rfl

@[simp] theorem applyXruns_streamTime (st : BackendState) (s : Nat) :
    (applyXruns st s).streamTime = st.streamTime := by
  simp only [applyXruns]; split <;> split <;> rfl

@[simp] theorem applyXruns_cpuUsage (st : BackendState) (s : Nat) :
    (applyXruns st s).cpuUsage = st.cpuUsage := by
  simp only [applyXruns]; split <;> split <;> rfl

@[simp] theorem applyXruns_userCallback (st : BackendState) (s : Nat) :
    (applyXruns st s).userCallback = st.userCallback := by
  simp only [applyXruns]; split <;> split <;> rfl

@[simp] theorem applyXruns_isRunning (st : BackendState) (s : Nat) :
    (applyXruns st s).isRunning = st.isRunning := by
  simp only [applyXruns]; split <;> split <;> rfl

@[simp] theorem applyXruns_isPaused (st : BackendState) (s : Nat) :
    (applyXruns st s).isPaused = st.isPaused := by
  simp only [applyXruns]; split <;> split <;> rfl

@[simp] theorem applyXruns_lastError (st : BackendState) (s : Nat) :
    (applyXruns st s).lastError = st.lastError := by
  simp only [applyXruns]; split <;> split <;> rfl

theorem applyXruns_xrunCount (st : BackendState) (s : Nat) :
    (applyXruns st s).xrunCount =
      st.xrunCount + (if s &&& RTAUDIO_INPUT_OVERFLOW ≠ 0 then 1 else 0)
        + (if s &&& RTAUDIO_OUTPUT_UNDERFLOW ≠ 0 then 1 else 0) := by
  simp only [applyXruns]
  split <;> split <;> simp

@[simp] theorem applyCpuUsage_config (st : BackendState) (n : Nat) (e : ℚ) :
    (applyCpuUsage st n e).config = st.config := by
  simp only [applyCpuUsage]; split <;> rfl

@[simp] theorem applyCpuUsage_streamTime (st : BackendState) (n : Nat) (e : ℚ) :
    (applyCpuUsage st n e).streamTime = st.streamTime := by
  simp only [applyCpuUsage]; split <;> rfl

@[simp] theorem applyCpuUsage_xrunCount (st : BackendState) (n : Nat) (e : ℚ) :
    (applyCpuUsage st n e).xrunCount = st.xrunCount := by
  simp only [applyCpuUsage]; split <;> rfl

@[simp] theorem applyCpuUsage_userCallback (st : BackendState) (n : Nat) (e : ℚ) :
    (applyCpuUsage st n e).userCallback = st.userCallback := by
  simp only [applyCpuUsage]; split <;> rfl

@[simp] theorem applyCpuUsage_isRunning (st : BackendState) (n : Nat) (e : ℚ) :
    (applyCpuUsage st n e).isRunning = st.isRunning := by
  simp only [applyCpuUsage]; split <;> rfl

@[simp] theorem applyCpuUsage_isPaused (st : BackendState) (n : Nat) (e : ℚ) :
    (applyCpuUsage st n e).isPaused = st.isPaused := by
  simp only [applyCpuUsage]; split <;> rfl

@[simp] theorem applyCpuUsage_lastError (st : BackendState) (n : Nat) (e : ℚ) :
    (applyCpuUsage st n e).lastError = st.lastError := by
  simp only [applyCpuUsage]; split <;> rfl

theorem applyCpuUsage_cpuUsage (st : BackendState) (n : Nat) (e : ℚ) :
    (applyCpuUsage st n e).cpuUsage =
      if e > (n : ℚ) / (st.config.sampleRate : ℚ) then 100
      else e / ((n : ℚ) / (st.config.sampleRate : ℚ)) * 100 := by
  simp only [applyCpuUsage]; split <;> rfl

@[simp] theorem updateStreamTime_config (st : BackendState) (n : Nat) :
    (updateStreamTime st n).config = st.config := rfl

@[simp] theorem updateStreamTime_cpuUsage (st : BackendState) (n : Nat) :
    (updateStreamTime st n).cpuUsage = st.cpuUsage := rfl

@[simp] theorem updateStreamTime_xrunCount (st : BackendState) (n : Nat) :
    (updateStreamTime st n).xrunCount = st.xrunCount := rfl

@[simp] theorem updateStreamTime_userCallback (st : BackendState) (n : Nat) :
    (updateStreamTime st n).userCallback = st.userCallback := rfl

@[simp] theorem updateStreamTime_isRunning (st : BackendState) (n : Nat) :
    (updateStreamTime st n).isRunning = st.isRunning := rfl

@[simp] theorem updateStreamTime_isPaused (st : BackendState) (n : Nat) :
    (updateStreamTime st n).isPaused = st.isPaused := rfl

@[simp] theorem updateStreamTime_lastError (st : BackendState) (n : Nat) :
    (updateStreamTime st n).lastError = st.lastError := rfl

@[simp] theorem updateStreamTime_streamTime (st : BackendState) (n : Nat) :
    (updateStreamTime st n).streamTime =
      st.streamTime + (n : ℚ) / (st.config.sampleRate : ℚ) := rfl

/-- The dispatch phase never touches the xrun counter. -/
theorem bridgeDispatch_xrunCount (st3 : BackendState) (inv : Invocation) :
    (bridgeDispatch st3 inv).1.xrunCount = st3.xrunCount := by
  simp only [bridgeDispatch]
  split
  · split <;> rfl
  · split <;> rfl

/-- The dispatch phase never touches the CPU-usage field. -/
theorem bridgeDispatch_cpuUsage (st3 : BackendState) (inv : Invocation) :
    (bridgeDispatch st3 inv).1.cpuUsage = st3.cpuUsage := by
  simp only [bridgeDispatch]
  split
  · split <;> rfl
  · split <;> rfl

/-- The dispatch phase never touches the running flag. -/
theorem bridgeDispatch_isRunning (st3 : BackendState) (inv : Invocation) :
    (bridgeDispatch st3 inv).1.isRunning = st3.isRunning := by
  simp only [bridgeDispatch]
  split
  · split <;> rfl
  · split <;> rfl

/-- The dispatch phase never touches the paused flag. -/
theorem bridgeDispatch_isPaused (st3 : BackendState) (inv : Invocation) :
    (bridgeDispatch st3 inv).1.isPaused = st3.isPaused := by
  simp only [bridgeDispatch]
  split
  · split <;> rfl
  · split <;> rfl

/-- The bridge's final branches never touch the xrun counter. -/
theorem handleAudioCallback_xrunCount (st : BackendState) (inv : Invocation) :
    (handleAudioCallback st inv).1.xrunCount =
      (applyXruns st inv.status).xrunCount := by
  rw [handleAudioCallback, bridgeDispatch_xrunCount]
  simp

/-- The bridge's final branches never touch the CPU-usage field. -/
theorem handleAudioCallback_cpuUsage (st : BackendState) (inv : Invocation) :
    (handleAudioCallback st inv).1.cpuUsage =
      (applyCpuUsage (applyXruns st inv.status) inv.nFrames inv.elapsed).cpuUsage := by
  rw [handleAudioCallback, bridgeDispatch_cpuUsage]
  simp

/-- The bridge never touches the running flag. -/
theorem handleAudioCallback_isRunning (st : BackendState) (inv : Invocation) :
    (handleAudioCallback st inv).1.isRunning = st.isRunning := by
  rw [handleAudioCallback, bridgeDispatch_isRunning]
  simp

theorem memsetZero_take (buf : List ℚ) (k : Nat) :
    (memsetZero buf k).take k = List.replicate k (0 : ℚ) := by
  rw [memsetZero]
  exact List.take_left' (List.length_replicate k 0)

/-- Dispatch when the installed callback raises: error recorded, 1
returned, output buffer untouched. -/
theorem bridgeDispatch_error (st3 : BackendState) (inv : Invocation)
    (cb : AudioCallback) (msg : String)
    (hcb : st3.userCallback = some cb)
    (herr : cb inv.inputBuffer inv.nFrames st3.streamTime = Except.error msg) :
    bridgeDispatch st3 inv =
      ({ st3 with lastError := "Audio callback error: " ++ msg },
       1, inv.outputBuffer) := by
  simp only [bridgeDispatch, hcb, herr]

/-- Dispatch when no callback is installed and output is configured:
the output buffer is zero-filled over `nFrames * outputChannels` samples. -/
theorem bridgeDispatch_silence (st3 : BackendState) (inv : Invocation)
    (buf : List ℚ)
    (hcb : st3.userCallback = none)
    (hch : st3.config.outputChannels > 0)
    (hbuf : inv.outputBuffer = some buf) :
    (bridgeDispatch st3 inv).2.2 =
      some (memsetZero buf (inv.nFrames * st3.config.outputChannels.toNat)) := by
  simp [bridgeDispatch, hcb, hbuf, hch]

/-- The fixed prefix makes the recorded callback error non-empty. -/
theorem audio_error_msg_ne_empty (msg : String) :
    "Audio callback error: " ++ msg ≠ "" := by
  intro h
  have h2 : ("Audio callback error: " ++ msg).length = 0 := by rw [h]; rfl
  rw [String.length_append] at h2
  have h3 : ("Audio callback error: ").length = 22 := rfl
  omega

/-- A concrete user callback that always raises. -/
def cbBoom : AudioCallback := fun _ _ _ => Except.error "boom"

/-- A running backend whose installed callback always raises. -/
def stErr : BackendState :=
  { initialState with isRunning := true, userCallback := some cbBoom }

/-- A concrete bridge invocation. -/
def invErr : Invocation :=
  { outputBuffer := none, inputBuffer := [], nFrames := 0
    elapsed := 0, status := 0 }

/-- C1 counterexample: at a concrete running backend whose user callback
raises, the bridge does return the halt signal 1 and records a non-empty
last error, yet `isRunning` is still `true` afterwards — the bridge does
not transition the backend to not-running, contrary to the claim. -/
theorem callbackError_isRunning_counterexample :
    (handleAudioCallback stErr invErr).2.1 = 1 ∧
    (handleAudioCallback stErr invErr).1.lastError ≠ "" ∧
    stErr.isRunning = true ∧
    (handleAudioCallback stErr invErr).1.isRunning = true := by
  have hmain : handleAudioCallback stErr invErr =
      ({ updateStreamTime (applyCpuUsage (applyXruns stErr invErr.status)
           invErr.nFrames invErr.elapsed) invErr.nFrames with
         lastError := "Audio callback error: " ++ "boom" },
       1, invErr.outputBuffer) := by
    rw [handleAudioCallback]
    exact bridgeDispatch_error _ _ cbBoom "boom" (by simp [stErr]) rfl
  refine ⟨by rw [hmain], ?_, rfl, ?_⟩
  · rw [hmain]
    exact audio_error_msg_ne_empty "boom"
  · rw [hmain]
    simp [stErr]

/-- C1 (amended): when the installed user callback raises during a bridge
invocation, the bridge catches the error, records it as the last error
(`getLastError()` becomes non-empty), returns the non-zero halt signal 1
to the native layer, and the native layer performs no further invocation
after the failing one; the bridge however leaves the `isRunning` flag
unchanged, so the backend still reports running until `stop()`. -/
theorem callbackError_recorded_halts (st : BackendState) (inv : Invocation)
    (rest : List Invocation) (cb : AudioCallback) (msg : String)
    (hcb : st.userCallback = some cb)
    (herr : cb inv.inputBuffer inv.nFrames (bridgeStreamTime st inv) =
      Except.error msg) :
    (handleAudioCallback st inv).1.lastError ≠ "" ∧
    (handleAudioCallback st inv).2.1 = 1 ∧
    (handleAudioCallback st inv).1.isRunning = st.isRunning ∧
    nativeDriverLoop st (inv :: rest) = ((handleAudioCallback st inv).1, 1) := by
  have hcb3 : (updateStreamTime (applyCpuUsage (applyXruns st inv.status)
      inv.nFrames inv.elapsed) inv.nFrames).userCallback = some cb := by
    simp [hcb]
  have herr3 : cb inv.inputBuffer inv.nFrames
      (updateStreamTime (applyCpuUsage (applyXruns st inv.status)
        inv.nFrames inv.elapsed) inv.nFrames).streamTime =
      Except.error msg := by
    rw [updateStreamTime_streamTime]
    simp only [applyCpuUsage_streamTime, applyXruns_streamTime,
      applyCpuUsage_config, applyXruns_config]
    exact herr
  have hmain : handleAudioCallback st inv =
      ({ updateStreamTime (applyCpuUsage (applyXruns st inv.status)
           inv.nFrames inv.elapsed) inv.nFrames with
         lastError := "Audio callback error: " ++ msg },
       1, inv.outputBuffer) := by
    rw [handleAudioCallback]
    exact bridgeDispatch_error _ _ _ _ hcb3 herr3
  refine ⟨?_, ?_, ?_, ?_⟩
  · rw [hmain]
    exact audio_error_msg_ne_empty msg
  · rw [hmain]
  · rw [hmain]
    simp
  · simp only [nativeDriverLoop]
    rw [hmain]
    norm_num

/-- A concrete invocation flagging both an input overflow and an output
underflow. -/
def invBoth : Invocation :=
  { outputBuffer := none, inputBuffer := [], nFrames := 0
    elapsed := 0, status := 3 }

/-- C2 counterexample: a concrete invocation whose status word carries both
the input-overflow and the output-underflow flag increments the xrun
counter by 2, not by exactly 1 as the claim states for a flagged
invocation. -/
theorem xrun_both_flags_counterexample :
    stErr.xrunCount = 0 ∧
    invBoth.status &&& RTAUDIO_INPUT_OVERFLOW ≠ 0 ∧
    invBoth.status &&& RTAUDIO_OUTPUT_UNDERFLOW ≠ 0 ∧
    (handleAudioCallback stErr invBoth).1.xrunCount = 2 ∧
    (handleAudioCallback stErr invBoth).1.xrunCount ≠ stErr.xrunCount + 1 := by
  have h := handleAudioCallback_xrunCount stErr invBoth
  rw [applyXruns_xrunCount] at h
  refine ⟨rfl, by decide, by decide, ?_, ?_⟩
  · rw [h]
    decide
  · rw [h]
    decide

/-- C2 (amended): each bridge invocation increments the xrun counter once
per set flag — by 1 when exactly one of input-overflow/output-underflow is
flagged, by 2 when both are, and not at all when neither is. -/
theorem xrunCount_per_flag (st : BackendState) (inv : Invocation) :
    (handleAudioCallback st inv).1.xrunCount =
      st.xrunCount
        + (if inv.status &&& RTAUDIO_INPUT_OVERFLOW ≠ 0 then 1 else 0)
        + (if inv.status &&& RTAUDIO_OUTPUT_UNDERFLOW ≠ 0 then 1 else 0) := by
  rw [handleAudioCallback_xrunCount, applyXruns_xrunCount]

/-- C6: on every bridge invocation, with `expected = nFrames / sampleRate`,
the CPU-usage value is set to 100 when the elapsed wall-clock time exceeds
`expected`, and to `(elapsed / expected) * 100` otherwise. -/
theorem cpuUsage_saturation_or_ratio (st : BackendState) (inv : Invocation) :
    (inv.elapsed > (inv.nFrames : ℚ) / (st.config.sampleRate : ℚ) →
      (handleAudioCallback st inv).1.cpuUsage = 100) ∧
    (¬ inv.elapsed > (inv.nFrames : ℚ) / (st.config.sampleRate : ℚ) →
      (handleAudioCallback st inv).1.cpuUsage =
        inv.elapsed / ((inv.nFrames : ℚ) / (st.config.sampleRate : ℚ)) * 100) := by
  constructor <;> intro h <;>
    rw [handleAudioCallback_cpuUsage, applyCpuUsage_cpuUsage] <;>
    simp only [applyXruns_config]
  · rw [if_pos h]
  · rw [if_neg h]

/-- A concrete invocation taking half of its real-time budget. -/
def invRatio : Invocation :=
  { outputBuffer := none, inputBuffer := [], nFrames := 480
    elapsed := 1/200, status := 0 }

/-- Witness for C6: at 48000 Hz, 480 frames give a 10 ms budget; an
invocation arriving after 5 ms records 50% CPU usage. -/
theorem cpuUsage_saturation_or_ratio_witness :
    (handleAudioCallback initialState invRatio).1.cpuUsage = 50 := by
  have h := (cpuUsage_saturation_or_ratio initialState invRatio).2
    (by norm_num [invRatio, initialState])
  rw [h]
  norm_num [invRatio, initialState]

/-- C8: on a bridge invocation with no installed user callback, a present
output buffer and a positive configured output channel count, the bridge
zero-fills the output buffer over `nFrames * outputChannels` samples. -/
theorem silence_zero_fill (st : BackendState) (inv : Invocation)
    (buf : List ℚ)
    (hcb : st.userCallback = none)
    (hch : st.config.outputChannels > 0)
    (hbuf : inv.outputBuffer = some buf) :
    (handleAudioCallback st inv).2.2 =
      some (memsetZero buf (inv.nFrames * st.config.outputChannels.toNat)) ∧
    (memsetZero buf (inv.nFrames * st.config.outputChannels.toNat)).take
      (inv.nFrames * st.config.outputChannels.toNat) =
      List.replicate (inv.nFrames * st.config.outputChannels.toNat) (0 : ℚ) := by
  refine ⟨?_, memsetZero_take _ _⟩
  rw [handleAudioCallback]
  have h := bridgeDispatch_silence
    (updateStreamTime (applyCpuUsage (applyXruns st inv.status)
      inv.nFrames inv.elapsed) inv.nFrames)
    inv buf (by simp [hcb]) (by simpa using hch) hbuf
  simpa using h

/-- A concrete invocation against a stale five-sample output buffer. -/
def invSil : Invocation :=
  { outputBuffer := some [1, 2, 3, 4, 5], inputBuffer := [], nFrames := 2
    elapsed := 0, status := 0 }

/-- Witness for C8: 2 frames at 2 output channels zero four samples of the
stale buffer. -/
theorem silence_zero_fill_witness :
    (handleAudioCallback initialState invSil).2.2 =
      some (memsetZero [1, 2, 3, 4, 5]
        (invSil.nFrames * initialState.config.outputChannels.toNat)) ∧
    (memsetZero [1, 2, 3, 4, 5]
      (invSil.nFrames * initialState.config.outputChannels.toNat)).take
      (invSil.nFrames * initialState.config.outputChannels.toNat) =
      List.replicate
        (invSil.nFrames * initialState.config.outputChannels.toNat) (0 : ℚ) :=
  silence_zero_fill initialState invSil [1, 2, 3, 4, 5] rfl (by decide) rfl

/-- C9: the sample-format mappings are total with a `Float32` fallback for
any unmapped format word, and they round-trip on all four formats. -/
theorem format_mapping_roundtrip :
    (∀ f : SampleFormat,
      convertRtAudioFormat (convertToRtAudioFormat f) = f) ∧
    (∀ x : Nat, x ≠ RTAUDIO_SINT16 → x ≠ RTAUDIO_SINT24 →
      x ≠ RTAUDIO_SINT32 → x ≠ RTAUDIO_FLOAT32 →
      convertRtAudioFormat x = SampleFormat.Float32) := by
  refine ⟨fun f => by cases f <;> rfl, fun x h2 h4 h8 h16 => ?_⟩
  unfold convertRtAudioFormat
  rw [if_neg h16, if_neg h2, if_neg h4, if_neg h8]

/-- Witness for C9: the round trip at `Int24`, and the fallback at the
unmapped word 5. -/
theorem format_mapping_roundtrip_witness :
    convertRtAudioFormat (convertToRtAudioFormat SampleFormat.Int24) =
      SampleFormat.Int24 ∧
    convertRtAudioFormat 5 = SampleFormat.Float32 :=
  ⟨format_mapping_roundtrip.1 SampleFormat.Int24,
   format_mapping_roundtrip.2 5 (by decide) (by decide) (by decide) (by decide)⟩

/-- Witness for C1 (amended), at the concrete raising callback. -/
theorem callbackError_recorded_halts_witness :
    (handleAudioCallback stErr invErr).1.lastError ≠ "" ∧
    (handleAudioCallback stErr invErr).2.1 = 1 ∧
    (handleAudioCallback stErr invErr).1.isRunning = stErr.isRunning ∧
    nativeDriverLoop stErr [invErr] = ((handleAudioCallback stErr invErr).1, 1) :=
  callbackError_recorded_halts stErr invErr [] cbBoom "boom" rfl rfl

/-- A nonempty prefix keeps any recorded message nonempty. -/
theorem prefixed_msg_ne_empty (p msg : String) (hp : p.length ≠ 0) :
    p ++ msg ≠ "" := by
  intro h
  have h2 : (p ++ msg).length = 0 := by rw [h]; rfl
  rw [String.length_append] at h2
  omega

/-- C3: calling `start` with a (non-null) callback on a backend on which
`initialize` was never run throws `AudioBackendStartFailed` and leaves the
backend not running, for every behavior of the native layer: the default
config carries no device names, so the parameter blocks stay
default-constructed with zero channels, which the native open rejects. -/
theorem start_uninitialized_fails (env : NativeEnv) (f : AudioCallback) :
    (start env initialState (some f)).thrown =
      some AudioErrorCode.AudioBackendStartFailed ∧
    (start env initialState (some f)).state.isRunning = false := by
  simp [start, startOpenResult, nativeOpenStream, initialState,
    OpResult.thrown, OpResult.state]

/-- C4: `stop` is total and never throws; on a non-running backend it is an
identity no-op; on a running backend it clears the callback and both flags,
and a native teardown failure only records a non-empty last error without
preventing that transition. -/
theorem stop_spec (env : NativeEnv) (st : BackendState) :
    (st.isRunning = false → stop env st = st) ∧
    (st.isRunning = true →
      (stop env st).isRunning = false ∧
      (stop env st).isPaused = false ∧
      (stop env st).userCallback = none ∧
      ((env.stopOk && env.closeOk) = false → (stop env st).lastError ≠ "") ∧
      ((env.stopOk && env.closeOk) = true →
        stop env st =
          { st with isRunning := false, isPaused := false, userCallback := none })) := by
  constructor
  · intro h
    simp [stop, h]
  · intro h
    refine ⟨?_, ?_, ?_, ?_, ?_⟩
    · simp [stop, h]
    · simp [stop, h]
    · simp [stop, h]
    · intro h2
      simp [stop, h, h2]
      exact prefixed_msg_ne_empty _ _ (by decide)
    · intro h2
      simp [stop, h, h2]

/-- A concrete well-behaved native environment. -/
def envA : NativeEnv :=
  { findDeviceIdByName := fun _ _ => -1
    defaultInputDevice := 0
    defaultOutputDevice := 1
    openOk := true
    adjustedBufferFrames := 512
    startOk := true
    stopOk := true
    closeOk := true
    errMsg := "native failure" }

/-- Witness for C4, at a concrete non-running and a concrete running
backend. -/
theorem stop_spec_witness :
    stop envA initialState = initialState ∧
    (stop envA stErr).isRunning = false ∧
    (stop envA stErr).isPaused = false ∧
    (stop envA stErr).userCallback = none :=
  ⟨(stop_spec envA initialState).1 rfl,
   ((stop_spec envA stErr).2 rfl).1,
   ((stop_spec envA stErr).2 rfl).2.1,
   ((stop_spec envA stErr).2 rfl).2.2.1⟩

/-- C5: `changeSampleRate` called while not running, or with
`allowSampleRateChange` unset, returns `false` without throwing and leaves
the whole state — in particular the running flag and the stored sample
rate — unchanged. -/
theorem changeSampleRate_refused (env : NativeEnv) (st : BackendState)
    (r : Int)
    (h : st.isRunning = false ∨ st.config.allowSampleRateChange = false) :
    changeSampleRate env st r = OpResult.ok st false ∧
    (changeSampleRate env st r).thrown = none ∧
    (changeSampleRate env st r).state.isRunning = st.isRunning ∧
    (changeSampleRate env st r).state.config.sampleRate =
      st.config.sampleRate := by
  have hmain : changeSampleRate env st r = OpResult.ok st false := by
    rcases h with h | h <;> simp [changeSampleRate, h]
  exact ⟨hmain, by rw [hmain]; rfl, by rw [hmain]; rfl, by rw [hmain]; rfl⟩

/-- Witness for C5, refused on the concrete initial (non-running) state. -/
theorem changeSampleRate_refused_witness :
    changeSampleRate envA initialState 44100 = OpResult.ok initialState false ∧
    (changeSampleRate envA initialState 44100).thrown = none ∧
    (changeSampleRate envA initialState 44100).state.isRunning =
      initialState.isRunning ∧
    (changeSampleRate envA initialState 44100).state.config.sampleRate =
      initialState.config.sampleRate :=
  changeSampleRate_refused envA initialState 44100 (Or.inl rfl)

/-- C7: for a stored config with positive sample rate and buffer size,
`measureLatency` reports a theoretical latency of
`bufferSize * 1000 / sampleRate` milliseconds (exactly, in exact
arithmetic), which at (512, 48000) lies within 0.001 of 10.6667 ms and at
(256, 44100) within 0.001 of 5.805 ms. -/
theorem measureLatency_theoretical (st : BackendState) (randVal : Nat)
    (h1 : 0 < st.config.sampleRate) (h2 : 0 < st.config.bufferSize) :
    (measureLatency st randVal).theoreticalMs =
      ((st.config.bufferSize : ℚ) * 1000) / (st.config.sampleRate : ℚ) ∧
    (st.config.bufferSize = 512 → st.config.sampleRate = 48000 →
      |(measureLatency st randVal).theoreticalMs - 106667/10000| <
        (1 : ℚ)/1000) ∧
    (st.config.bufferSize = 256 → st.config.sampleRate = 44100 →
      |(measureLatency st randVal).theoreticalMs - 5805/1000| <
        (1 : ℚ)/1000) := by
  refine ⟨rfl, ?_, ?_⟩ <;> intro hb hs <;>
    simp [measureLatency, hb, hs] <;>
    rw [abs_sub_lt_iff] <;> constructor <;> norm_num

/-- Witness for C7: the default config is exactly the 512-frame, 48000 Hz
case. -/
theorem measureLatency_theoretical_witness :
    (measureLatency initialState 7).theoreticalMs =
      ((initialState.config.bufferSize : ℚ) * 1000) /
        (initialState.config.sampleRate : ℚ) ∧
    |(measureLatency initialState 7).theoreticalMs - 106667/10000| <
      (1 : ℚ)/1000 :=
  ⟨(measureLatency_theoretical initialState 7 (by decide) (by decide)).1,
   (measureLatency_theoretical initialState 7 (by decide) (by decide)).2.1
     rfl rfl⟩

/-- The paused flag may only be set while the backend runs. -/
def pausedImpliesRunning (st : BackendState) : Prop :=
  st.isPaused = true → st.isRunning = true

/-- The tail of `start` keeps the invariant whenever the pre-state is not
paused: every exit either clears the paused flag or leaves it false. -/
theorem startOpenResult_inv (env : NativeEnv) (st0 : BackendState)
    (o : Option Int) (h0 : st0.isPaused = false) :
    pausedImpliesRunning (startOpenResult env st0 o).state := by
  unfold pausedImpliesRunning
  cases o with
  | none => simp [startOpenResult, OpResult.state, h0]
  | some adjusted =>
      by_cases hs : env.startOk
      · simp [startOpenResult, OpResult.state, hs]
      · simp [startOpenResult, OpResult.state, hs, h0]

/-- C10: `isPaused → isRunning` holds initially and is preserved by every
lifecycle operation — `initialize`, `start`, `stop`, `pause`, `resume` —
since pause sets the paused flag only while running and both start and stop
clear it. -/
theorem lifecycle_paused_invariant (env : NativeEnv) (st : BackendState)
    (cfg : StreamConfig) (cb : Option AudioCallback)
    (h : pausedImpliesRunning st) :
    pausedImpliesRunning initialState ∧
    pausedImpliesRunning (initStream st cfg).state ∧
    pausedImpliesRunning (start env st cb).state ∧
    pausedImpliesRunning (stop env st) ∧
    pausedImpliesRunning (pause env st).state ∧
    pausedImpliesRunning (resume env st).state := by
  refine ⟨?_, ?_, ?_, ?_, ?_, ?_⟩
  · intro hp
    simp [initialState] at hp
  · unfold initStream
    split
    · exact h
    · intro hp
      simp [OpResult.state] at hp
      exact h hp
  · simp only [start]
    split
    · exact h
    · split
      · exact h
      · rename_i hrun hcb
        refine startOpenResult_inv _ _ _ ?_
        have hrun2 : st.isRunning = false := by
          simpa using hrun
        cases hb : st.isPaused
        · rfl
        · rw [h hb] at hrun2
          cases hrun2
  · unfold stop pausedImpliesRunning
    split
    · exact h
    · intro hp
      simp at hp
  · unfold pause pausedImpliesRunning
    split
    · exact h
    · rename_i hc
      split
      · intro hp
        simp [OpResult.state]
        rcases not_or.mp hc with ⟨hr, _⟩
        simpa using hr
      · intro hp
        simp [OpResult.state] at hp ⊢
        exact h hp
  · unfold resume pausedImpliesRunning
    split
    · exact h
    · rename_i hc
      split
      · intro hp
        simp [OpResult.state] at hp
      · intro hp
        simp [OpResult.state] at hp ⊢
        exact h hp

/-- Witness for C10, at the concrete running-and-paused state. -/
theorem lifecycle_paused_invariant_witness :
    pausedImpliesRunning initialState ∧
    pausedImpliesRunning (initStream stErr {}).state ∧
    pausedImpliesRunning (start envA stErr (some cbBoom)).state ∧
    pausedImpliesRunning (stop envA stErr) ∧
    pausedImpliesRunning (pause envA stErr).state ∧
    pausedImpliesRunning (resume envA stErr).state :=
  lifecycle_paused_invariant envA stErr {} (some cbBoom) (fun _ => rfl)

end AudioEngine
